import Mathlib

/-!
Shallow embedding of `src/controller.js` of the gamee-js input-abstraction
layer.

JavaScript objects used as string-keyed maps (`controller.buttons`,
`controller.buttonAlias`, the `keyCodes` reverse map of `enableKeyboard`)
are modelled as association lists so that insertion, overwrite and `delete`
keep their JS semantics (insertion order preserved, assignment to an
existing key replaces in place, `delete` removes the entry).

The Bullet pub/sub channel is folded into the dispatch functions: each
event name handled by a Controller has exactly one built-in handler
installed by the constructor, so `trigger` is a function by event name.
A dispatch returns the updated controller together with a log of the
button-level events it delivered (`(name, event)` where `name` is the
buttons-map key under which the receiving Button was found); the log is
what game subscribers attached to a Button would observe.

JS truthiness is modelled where the source relies on it: `data.button`
is falsy when the field is missing (`none`) or the empty string, and the
alias target `buttonAlias[data.button]` is falsy when absent or empty.
-/

namespace Gamee

/-- Association-list get: first entry with the given key, as in a JS
object property read (`undefined` becomes `none`). -/
def alistGet {κ α : Type} [DecidableEq κ] : List (κ × α) → κ → Option α
  | [], _ => none
  | (k', v) :: t, k => if k' = k then some v else alistGet t k

/-- Association-list put: JS property assignment — replace in place if the
key is present, otherwise append (insertion order preserved). -/
def alistPut {κ α : Type} [DecidableEq κ] : List (κ × α) → κ → α → List (κ × α)
  | [], k, v => [(k, v)]
  | (k', v') :: t, k, v =>
      if k' = k then (k, v) :: t else (k', v') :: alistPut t k v

/-- Association-list remove: JS `delete obj[k]`. -/
def alistRemove {κ α : Type} [DecidableEq κ] (l : List (κ × α)) (k : κ) :
    List (κ × α) :=
  l.filter (fun p => p.1 ≠ k)

theorem alistGet_put_self {κ α : Type} [DecidableEq κ]
    (l : List (κ × α)) (k : κ) (v : α) :
    alistGet (alistPut l k v) k = some v := by
  induction l with
  | nil => simp [alistPut, alistGet]
  | cons hd t ih =>
      by_cases h : hd.1 = k
      · simp [alistPut, alistGet, h]
      · simp [alistPut, alistGet, h, ih]

theorem alistGet_put_ne {κ α : Type} [DecidableEq κ]
    (l : List (κ × α)) (k k' : κ) (v : α) (h : k ≠ k') :
    alistGet (alistPut l k v) k' = alistGet l k' := by
  induction l with
  | nil => simp [alistPut, alistGet, h]
  | cons hd t ih =>
      by_cases hh : hd.1 = k
      · simp [alistPut, alistGet, hh, h]
      · simp [alistPut, alistGet, hh, ih]

theorem alistGet_remove_self {κ α : Type} [DecidableEq κ]
    (l : List (κ × α)) (k : κ) :
    alistGet (alistRemove l k) k = none := by
  induction l with
  | nil => simp [alistRemove, alistGet]
  | cons hd t ih =>
      by_cases h : hd.1 = k
      · simpa [alistRemove, List.filter, h] using ih
      · simpa [alistRemove, List.filter, h, alistGet] using ih

theorem alistGet_remove_ne {κ α : Type} [DecidableEq κ]
    (l : List (κ × α)) (k k' : κ) (h : k ≠ k') :
    alistGet (alistRemove l k) k' = alistGet l k' := by
  induction l with
  | nil => simp [alistRemove, alistGet]
  | cons hd t ih =>
      have h' : ¬ k' = k := fun hc => h hc.symm
      by_cases hk : hd.1 = k'
      · have hh : ¬ hd.1 = k := by
          intro hc; exact h (hc ▸ hk)
        simp [alistRemove, List.filter_cons, hh, alistGet, hk, h']
      · by_cases hh : hd.1 = k
        · simpa [alistRemove, List.filter_cons, hh, alistGet, hk, h, h'] using ih
        · simpa [alistRemove, List.filter_cons, hh, alistGet, hk, h, h'] using ih

/-- Button-level events of the Bullet channel embedded in a Button. -/
inductive BtnEvt : Type
  | keydown
  | keyup
deriving DecidableEq, Repr

/-- `Button(key, keyCode)`: `key` and `keyCode` are stored; `_pressed`
starts `true` (source quirk, `controller.js` line 103). -/
structure Button : Type where
  key : String
  keyCode : Nat
  pressed : Bool
deriving DecidableEq, Repr

/-- Button construction (`function Button(key, keyCode)`). -/
def Button.new (key : String) (keyCode : Nat) : Button :=
  { key := key, keyCode := keyCode, pressed := true }

/-- `Button.prototype.isDown`: returns `this._pressed`. -/
def Button.isDown (b : Button) : Bool :=
  b.pressed

/-- The two internal subscriptions installed by the Button constructor:
`keydown` sets `_pressed = true`, `keyup` sets `_pressed = false`. -/
def Button.applyEvt (b : Button) : BtnEvt → Button
  | BtnEvt.keydown => { b with pressed := true }
  | BtnEvt.keyup => { b with pressed := false }

/-- Controller state: `buttons` and `buttonAlias` maps, plus the keyboard
reverse map (`keyCodes`) snapshotted by `enableKeyboard` (`none` while the
keyboard is not enabled).  The `keyCodes` map stores `button.key` — the
key name fixed at Button construction, which is what the keyboard handler
closure reads when it emits `{button: button.key}`. -/
structure Controller : Type where
  buttons : List (String × Button)
  buttonAlias : List (String × String)
  kb : Option (List (Nat × String))
deriving DecidableEq, Repr

/-- `function Controller()`: empty `buttons` and `buttonAlias`, keyboard
not enabled. -/
def Controller.new : Controller :=
  { buttons := [], buttonAlias := [], kb := none }

/-- `Controller.prototype.addButton`: `this.buttons[button.key] = button`. -/
def Controller.addButton (c : Controller) (b : Button) : Controller :=
  { c with buttons := alistPut c.buttons b.key b }

/-- The alias rewrite performed by the `$keydown`/`$keyup` handlers:
`if (data.button && self.buttonAlias[data.button]) data.button = alias`.
Both the field and the alias target are checked for JS truthiness, so a
missing field, an empty-string name, or an empty-string alias target
leaves the payload unchanged. -/
def Controller.aliasResolve (c : Controller) : Option String → Option String
  | none => none
  | some s =>
      if s = "" then some s
      else
        match alistGet c.buttonAlias s with
        | none => some s
        | some t => if t = "" then some s else some t

/-- The public `keydown`/`keyup` handlers: look up `data.button` in
`this.buttons`; if the field is falsy or the name is absent, return with
no effect; otherwise trigger the Button's own event (updating its
`_pressed` and notifying its subscribers, recorded in the log under the
buttons-map name it was found at). -/
def Controller.pubKey (c : Controller) (e : BtnEvt) :
    Option String → Controller × List (String × BtnEvt)
  | none => (c, [])
  | some s =>
      if s = "" then (c, [])
      else
        match alistGet c.buttons s with
        | none => (c, [])
        | some b =>
            ({ c with buttons := alistPut c.buttons s (b.applyEvt e) },
             [(s, e)])

/-- The private `$keydown`/`$keyup` handlers: rewrite the `button` field
through `buttonAlias`, then re-trigger the corresponding public event. -/
def Controller.privKey (c : Controller) (e : BtnEvt) (data : Option String) :
    Controller × List (String × BtnEvt) :=
  c.pubKey e (c.aliasResolve data)

/-- The controller events the bridge and the keyboard adapter emit; the
payload is the `button` field of the `data` object (`none` = missing). -/
inductive CtrlEvent : Type
  | privKeydown (button : Option String)
  | privKeyup (button : Option String)
  | keydown (button : Option String)
  | keyup (button : Option String)
deriving DecidableEq, Repr

/-- `controller.trigger(eventName, data)` for the key events: each name
has exactly one handler, installed by the Controller constructor. -/
def Controller.trigger (c : Controller) :
    CtrlEvent → Controller × List (String × BtnEvt)
  | CtrlEvent.privKeydown d => c.privKey BtnEvt.keydown d
  | CtrlEvent.privKeyup d => c.privKey BtnEvt.keyup d
  | CtrlEvent.keydown d => c.pubKey BtnEvt.keydown d
  | CtrlEvent.keyup d => c.pubKey BtnEvt.keyup d

/-- The `keyCodes` reverse map built by `enableKeyboard`: iterate
`this.buttons` in insertion order, and for every button with a truthy
`keyCode` store `keyCodes[button.keyCode] = button` (later buttons with
the same keyCode overwrite earlier ones).  Only the button's immutable
`key` is consulted afterwards, so the map stores it directly. -/
def buildKeyCodes (bs : List (String × Button)) : List (Nat × String) :=
  bs.foldl
    (fun m p => if p.2.keyCode ≠ 0 then alistPut m p.2.keyCode p.2.key else m)
    []

/-- `Controller.prototype.enableKeyboard`: snapshot the reverse map and
subscribe the two keyboard-bridge handlers. -/
def Controller.enableKeyboard (c : Controller) : Controller :=
  { c with kb := some (buildKeyCodes c.buttons) }

/-- A physical key-press delivered by the keyboard bridge: if the
keyboard was never enabled nothing is subscribed; otherwise the handler
looks the code up in `keyCodes`, ignores unknown codes, and emits the
public `keydown` with `{button: button.key}` — the construction-time key
name, with no alias resolution. -/
def Controller.keyboardKeydown (c : Controller) (code : Nat) :
    Controller × List (String × BtnEvt) :=
  match c.kb with
  | none => (c, [])
  | some m =>
      match alistGet m code with
      | none => (c, [])
      | some key => c.pubKey BtnEvt.keydown (some key)

/-- A physical key-release: symmetric to `Controller.keyboardKeydown`. -/
def Controller.keyboardKeyup (c : Controller) (code : Nat) :
    Controller × List (String × BtnEvt) :=
  match c.kb with
  | none => (c, [])
  | some m =>
      match alistGet m code with
      | none => (c, [])
      | some key => c.pubKey BtnEvt.keyup (some key)

/-- `Controller.prototype.remapButton(oldName, newProp)`: if `oldName` is
present, set `buttonAlias[oldName] = newProp.name`, store the button
under `newProp.name`, and delete the `oldName` entry; silent no-op
otherwise.  `newName` stands for `newProp.name`. -/
def Controller.remapButton (c : Controller) (oldName newName : String) :
    Controller :=
  match alistGet c.buttons oldName with
  | none => c
  | some b =>
      { c with
        buttonAlias := alistPut c.buttonAlias oldName newName,
        buttons := alistRemove (alistPut c.buttons newName b) oldName }

/-- `OneButtonController`. -/
def OneButtonController : Controller :=
  Controller.new.addButton (Button.new "button" 32)

/-- `TwoButtonController`. -/
def TwoButtonController : Controller :=
  (Controller.new.addButton (Button.new "left" 37)).addButton
    (Button.new "right" 39)

/-- `FourButtonController`. -/
def FourButtonController : Controller :=
  (((Controller.new.addButton (Button.new "up" 38)).addButton
    (Button.new "left" 37)).addButton
    (Button.new "right" 39)).addButton
    (Button.new "A" 32)

/-- `FiveButtonController`. -/
def FiveButtonController : Controller :=
  ((((Controller.new.addButton (Button.new "up" 38)).addButton
    (Button.new "left" 37)).addButton
    (Button.new "right" 39)).addButton
    (Button.new "down" 40)).addButton
    (Button.new "A" 32)

/-- `SixButtonController`. -/
def SixButtonController : Controller :=
  (((((Controller.new.addButton (Button.new "up" 38)).addButton
    (Button.new "left" 37)).addButton
    (Button.new "right" 39)).addButton
    (Button.new "down" 40)).addButton
    (Button.new "A" 32)).addButton
    (Button.new "B" 17)

/-- `TouchController`: no buttons; its extra handlers only relay the five
touch-phase events, which carry no button state and are not modelled. -/
def TouchController : Controller :=
  Controller.new

/-- `controllerTypes`: the catalog from type identifier to constructor. -/
def controllerTypes : String → Option Controller
  | "OneButton" => some OneButtonController
  | "TwoButtons" => some TwoButtonController
  | "FourButtons" => some FourButtonController
  | "FiveButtons" => some FiveButtonController
  | "SixButtons" => some SixButtonController
  | "Touch" => some TouchController
  | _ => none

/-- The two errors thrown by `controller.js`
(`'Unsupported controller type, ...'` and `'No controller present'`). -/
inductive GErr : Type
  | UnsupportedControllerType
  | NoControllerPresent
deriving DecidableEq, Repr

/-- Factory options: `opts.enableKeyboard` and `opts.buttons` (the remap
table, in its JS-object iteration order; each value is the `newProp`
object, of which only `.name` is read). -/
structure Opts : Type where
  enableKeyboard : Bool := false
  buttons : List (String × String) := []
deriving DecidableEq, Repr

/-- `createController(type, opts)`: throw `UnsupportedControllerType` for
a type absent from the catalog (before the controller is instantiated and
before any option is applied); otherwise build the layout, call
`enableKeyboard()` if `opts.enableKeyboard` is truthy, then apply
`opts.buttons` through `remapButton` in iteration order. -/
def createController (type : String) (opts : Opts) : Except GErr Controller :=
  match controllerTypes type with
  | none => Except.error GErr.UnsupportedControllerType
  | some c0 =>
      let c1 := if opts.enableKeyboard then c0.enableKeyboard else c0
      Except.ok
        (opts.buttons.foldl (fun c p => c.remapButton p.1 p.2) c1)

/-- Decidable equality of factory results, for evaluating the model on
concrete inputs. -/
instance instDecidableEqExcept {ε α : Type} [DecidableEq ε] [DecidableEq α] :
    DecidableEq (Except ε α) := fun a b =>
  match a, b with
  | Except.error e, Except.error e' =>
      if h : e = e' then isTrue (by rw [h])
      else isFalse (by intro hc; cases hc; exact h rfl)
  | Except.ok x, Except.ok y =>
      if h : x = y then isTrue (by rw [h])
      else isFalse (by intro hc; cases hc; exact h rfl)
  | Except.error _, Except.ok _ => isFalse (by intro hc; cases hc)
  | Except.ok _, Except.error _ => isFalse (by intro hc; cases hc)

/-- Host-bridge announcements (`$gameeNative.requestController` /
`$gameeNative.additionalController`), recorded for the session model. -/
inductive Announcement : Type
  | primary (type : String)
  | additional (type : String)
deriving DecidableEq, Repr

/-- Controller-session state: the module-level `mainController` variable
plus the trace of fire-and-forget host announcements. -/
structure Session : Type where
  main : Option Controller
  announcements : List Announcement
deriving DecidableEq, Repr

/-- Session state at module load: `mainController` is `undefined` and
nothing has been announced. -/
def Session.start : Session :=
  { main := none, announcements := [] }

/-- `gamee.controller.requestController`: build via the factory (a throw
propagates before any announcement or assignment), announce the primary
type, set `mainController`, and return the controller. -/
def Session.requestController (s : Session) (type : String) (opts : Opts) :
    Except GErr Controller × Session :=
  match createController type opts with
  | Except.error e => (Except.error e, s)
  | Except.ok c =>
      (Except.ok c,
       { main := some c,
         announcements := s.announcements ++ [Announcement.primary type] })

/-- `gamee.controller.additionalController`: build via the factory,
announce the additional type, return the controller; `mainController` is
never touched. -/
def Session.additionalController (s : Session) (type : String) (opts : Opts) :
    Except GErr Controller × Session :=
  match createController type opts with
  | Except.error e => (Except.error e, s)
  | Except.ok c =>
      (Except.ok c,
       { s with
         announcements := s.announcements ++ [Announcement.additional type] })

/-- `gamee.controller.trigger`: throw `NoControllerPresent` when no main
controller has been requested, otherwise forward to the main controller's
trigger (returning the delivered button-level events). -/
def Session.trigger (s : Session) (ev : CtrlEvent) :
    Except GErr (List (String × BtnEvt)) × Session :=
  match s.main with
  | none => (Except.error GErr.NoControllerPresent, s)
  | some c =>
      let r := c.trigger ev
      (Except.ok r.2, { s with main := some r.1 })

/-- The controller produced by
`createController("FourButtons", {enableKeyboard: true, buttons: {left: {name: "throttle"}}})`:
keyboard enabled first, then `left` remapped to `throttle`. -/
def kbRemapCtrl : Controller :=
  (FourButtonController.enableKeyboard).remapButton "left" "throttle"

/-- C1 (counterexample): on a FourButtons controller with keyboard enabled
and `left` remapped to `throttle`, the remapped button sits under
`throttle` with keyCode 37, yet a physical key event with keyCode 37
delivers no `keydown`/`keyup` to any button and leaves the controller
unchanged — the remapped button's events do not fire, contrary to the
claim.  The keyboard handler emits the public `keydown` with the
construction-time name `left`, which alias resolution (private-event-only)
never rewrites and which is no longer in the buttons map. -/
theorem C1_keyboard_remap_counterexample :
    createController "FourButtons" ⟨true, [("left", "throttle")]⟩ =
      Except.ok kbRemapCtrl ∧
    alistGet kbRemapCtrl.buttons "throttle" = some (Button.new "left" 37) ∧
    kbRemapCtrl.keyboardKeydown 37 = (kbRemapCtrl, []) ∧
    kbRemapCtrl.keyboardKeyup 37 = (kbRemapCtrl, []) := by
  decide

/-- C1 (amended): with keyboard enabled, a physical key event whose code
is in the `keyCodes` snapshot is emitted on the public `keydown`/`keyup`
path under the button's construction-time key name, with no alias
resolution (which applies only to private `$`-prefixed events); hence
when that name has been remapped away (absent from the buttons map), the
keyboard event is silently dropped instead of reaching the remapped
button. -/
theorem C1_keyboard_uses_original_name (c : Controller)
    (m : List (Nat × String)) (code : Nat) (key : String)
    (hm : c.kb = some m) (hk : alistGet m code = some key) :
    c.keyboardKeydown code = c.pubKey BtnEvt.keydown (some key) ∧
    c.keyboardKeyup code = c.pubKey BtnEvt.keyup (some key) ∧
    (alistGet c.buttons key = none →
      c.keyboardKeydown code = (c, []) ∧ c.keyboardKeyup code = (c, [])) := by
  refine ⟨?_, ?_, ?_⟩
  · simp [Controller.keyboardKeydown, hm, hk]
  · simp [Controller.keyboardKeyup, hm, hk]
  · intro hb
    by_cases hke : key = "" <;>
      simp [Controller.keyboardKeydown, Controller.keyboardKeyup, hm, hk,
            Controller.pubKey, hke, hb]

/-- C1 (witness): the amended statement evaluated on the concrete
keyboard-enabled, remapped FourButtons controller at keyCode 37. -/
theorem C1_keyboard_uses_original_name_witness :
    kbRemapCtrl.keyboardKeydown 37 =
      kbRemapCtrl.pubKey BtnEvt.keydown (some "left") ∧
    kbRemapCtrl.keyboardKeyup 37 =
      kbRemapCtrl.pubKey BtnEvt.keyup (some "left") ∧
    (alistGet kbRemapCtrl.buttons "left" = none →
      kbRemapCtrl.keyboardKeydown 37 = (kbRemapCtrl, []) ∧
      kbRemapCtrl.keyboardKeyup 37 = (kbRemapCtrl, [])) :=
  C1_keyboard_uses_original_name kbRemapCtrl
    [(38, "up"), (37, "left"), (39, "right"), (32, "A")] 37 "left"
    (by decide) (by decide)

/-- C2: on any controller holding a button `b` under `left`, after
`remapButton("left", {name: "throttle"})` the buttons map has no `left`
entry, has `b` under `throttle`, `buttonAlias` maps `left` to `throttle`,
and triggering the private `$keydown` with `{button: "left"}` delivers a
`keydown` to exactly the button stored under `throttle` (none under the
old name). -/
theorem C2_remap_round_trip (c : Controller) (b : Button)
    (h : alistGet c.buttons "left" = some b) :
    alistGet ((c.remapButton "left" "throttle").buttons) "left" = none ∧
    alistGet ((c.remapButton "left" "throttle").buttons) "throttle" =
      some b ∧
    alistGet ((c.remapButton "left" "throttle").buttonAlias) "left" =
      some "throttle" ∧
    ((c.remapButton "left" "throttle").trigger
        (CtrlEvent.privKeydown (some "left"))).2 =
      [("throttle", BtnEvt.keydown)] := by
  have hne : ("left" : String) ≠ "throttle" := by decide
  have hne' : ("throttle" : String) ≠ "left" := by decide
  refine ⟨?_, ?_, ?_, ?_⟩
  · simp [Controller.remapButton, h, alistGet_remove_self]
  · simp [Controller.remapButton, h, alistGet_remove_ne _ _ _ hne,
          alistGet_put_self]
  · simp [Controller.remapButton, h, alistGet_put_self]
  · simp [Controller.remapButton, h, Controller.trigger, Controller.privKey,
          Controller.aliasResolve, Controller.pubKey, alistGet_put_self,
          alistGet_remove_ne _ _ _ hne]

/-- C2 (witness): the round trip evaluated on a fresh TwoButtons
controller, whose `left` button is `Button("left", 37)`. -/
theorem C2_remap_round_trip_witness :
    alistGet ((TwoButtonController.remapButton "left" "throttle").buttons)
      "left" = none ∧
    alistGet ((TwoButtonController.remapButton "left" "throttle").buttons)
      "throttle" = some (Button.new "left" 37) ∧
    alistGet
      ((TwoButtonController.remapButton "left" "throttle").buttonAlias)
      "left" = some "throttle" ∧
    ((TwoButtonController.remapButton "left" "throttle").trigger
        (CtrlEvent.privKeydown (some "left"))).2 =
      [("throttle", BtnEvt.keydown)] :=
  C2_remap_round_trip TwoButtonController (Button.new "left" 37) (by decide)

/-- C3: on the fresh session, `trigger` fails with `NoControllerPresent`;
after `requestController("OneButton")`, triggering `$keydown` with
`{button: "button"}` leaves the controller's `button` Button reporting
`isDown() = true`. -/
theorem C3_session_trigger_before_and_after_request :
    (Session.start.trigger (CtrlEvent.privKeydown (some "button"))).1 =
      Except.error GErr.NoControllerPresent ∧
    ((((Session.start.requestController "OneButton" {}).2).trigger
        (CtrlEvent.privKeydown (some "button"))).2).main.map
      (fun c => (alistGet c.buttons "button").map Button.isDown) =
      some (some true) := by
  decide

/-- The observable catalog data of a built controller: its buttons-map
entries as `(name, keyCode)` pairs, in insertion order. -/
def buttonTable (c : Controller) : List (String × Nat) :=
  c.buttons.map (fun p => (p.1, p.2.keyCode))

/-- C4: for every supported type identifier, the factory yields a
controller whose button names and keyCodes exactly match the catalog
table; `Touch` yields an empty button set. -/
theorem C4_factory_matches_catalog :
    (createController "OneButton" {}).map buttonTable =
      Except.ok [("button", 32)] ∧
    (createController "TwoButtons" {}).map buttonTable =
      Except.ok [("left", 37), ("right", 39)] ∧
    (createController "FourButtons" {}).map buttonTable =
      Except.ok [("up", 38), ("left", 37), ("right", 39), ("A", 32)] ∧
    (createController "FiveButtons" {}).map buttonTable =
      Except.ok
        [("up", 38), ("left", 37), ("right", 39), ("down", 40), ("A", 32)] ∧
    (createController "SixButtons" {}).map buttonTable =
      Except.ok
        [("up", 38), ("left", 37), ("right", 39), ("down", 40), ("A", 32),
         ("B", 17)] ∧
    (createController "Touch" {}).map buttonTable = Except.ok [] := by
  decide

/-- C5: for every type identifier absent from the catalog, the factory
fails with `UnsupportedControllerType`, uniformly in the options — the
guard runs before the controller is instantiated and before any option
is applied, so the result does not depend on `opts`. -/
theorem C5_unsupported_type_fails (type : String) (opts : Opts)
    (h : controllerTypes type = none) :
    createController type opts = Except.error GErr.UnsupportedControllerType := by
  simp [createController, h]

/-- C5 (witness): `createController("Bogus", ...)` fails even with options
supplied. -/
theorem C5_unsupported_type_fails_witness :
    controllerTypes "Bogus" = none ∧
    createController "Bogus" ⟨true, [("left", "x")]⟩ =
      Except.error GErr.UnsupportedControllerType :=
  ⟨by decide, C5_unsupported_type_fails "Bogus" ⟨true, [("left", "x")]⟩ (by decide)⟩

/-- C6: `additionalController` returns exactly the factory's result and
never changes what the session's `trigger` routes to: the main controller
(set by the last `requestController`, or still absent) is untouched, on
success and on failure alike. -/
theorem C6_additional_controller_keeps_main (type : String) (opts : Opts)
    (s : Session) :
    (s.additionalController type opts).1 = createController type opts ∧
    ((s.additionalController type opts).2).main = s.main := by
  cases hc : createController type opts <;>
    simp [Session.additionalController, hc]

/-- C6 (witness): an additional Touch controller on a session whose main
controller is a OneButton controller. -/
theorem C6_additional_controller_keeps_main_witness :
    ((Session.mk (some OneButtonController) []).additionalController
        "Touch" {}).1 = createController "Touch" {} ∧
    (((Session.mk (some OneButtonController) []).additionalController
        "Touch" {}).2).main = (Session.mk (some OneButtonController) []).main :=
  C6_additional_controller_keeps_main "Touch" {}
    (Session.mk (some OneButtonController) [])

/-- C7: for every `(key, keyCode)`, a fresh Button reports
`isDown() = true` at construction; after a `keyup` dispatch it reports
`false`; after a subsequent `keydown` dispatch it reports `true` again. -/
theorem C7_button_pressed_lifecycle (key : String) (code : Nat) :
    (Button.new key code).isDown = true ∧
    ((Button.new key code).applyEvt BtnEvt.keyup).isDown = false ∧
    (((Button.new key code).applyEvt BtnEvt.keyup).applyEvt
        BtnEvt.keydown).isDown = true := by
  simp [Button.new, Button.applyEvt, Button.isDown]

/-- C7 (witness): the lifecycle evaluated on `Button("button", 32)`. -/
theorem C7_button_pressed_lifecycle_witness :
    (Button.new "button" 32).isDown = true ∧
    ((Button.new "button" 32).applyEvt BtnEvt.keyup).isDown = false ∧
    (((Button.new "button" 32).applyEvt BtnEvt.keyup).applyEvt
        BtnEvt.keydown).isDown = true :=
  C7_button_pressed_lifecycle "button" 32

/-- C8: triggering the public `keydown` or `keyup` with a payload whose
`button` field is missing, or names a button absent from the buttons map,
delivers no button-level event and leaves the controller (so every
button's pressed state) unchanged; the dispatch functions are total, so
no error is raised. -/
theorem C8_unknown_button_dropped (c : Controller) (data : Option String)
    (h : data = none ∨
      ∃ s, data = some s ∧ alistGet c.buttons s = none) :
    c.trigger (CtrlEvent.keydown data) = (c, []) ∧
    c.trigger (CtrlEvent.keyup data) = (c, []) := by
  rcases h with h | ⟨s, hd, hs⟩
  · subst h; simp [Controller.trigger, Controller.pubKey]
  · subst hd
    by_cases hke : s = "" <;>
      simp [Controller.trigger, Controller.pubKey, hke, hs]

/-- C8 (witness): a `keydown`/`keyup` for the unknown name `nope` on a
OneButton controller is dropped. -/
theorem C8_unknown_button_dropped_witness :
    OneButtonController.trigger (CtrlEvent.keydown (some "nope")) =
      (OneButtonController, []) ∧
    OneButtonController.trigger (CtrlEvent.keyup (some "nope")) =
      (OneButtonController, []) :=
  C8_unknown_button_dropped OneButtonController (some "nope")
    (Or.inr ⟨"nope", rfl, by decide⟩)

/-- C9: remapping a button to its own current name removes it from the
buttons map entirely (no entry for `k` remains), records
`buttonAlias[k] = k`, and a subsequent private `$keydown` referencing `k`
is dropped — no button-level event, state unchanged. -/
theorem C9_remap_to_same_name_removes (c : Controller) (k : String)
    (b : Button) (h : alistGet c.buttons k = some b) :
    alistGet ((c.remapButton k k).buttons) k = none ∧
    alistGet ((c.remapButton k k).buttonAlias) k = some k ∧
    (c.remapButton k k).trigger (CtrlEvent.privKeydown (some k)) =
      (c.remapButton k k, []) := by
  refine ⟨?_, ?_, ?_⟩
  · simp [Controller.remapButton, h, alistGet_remove_self]
  · simp [Controller.remapButton, h, alistGet_put_self]
  · by_cases hke : k = "" <;>
      simp [Controller.remapButton, h, Controller.trigger,
            Controller.privKey, Controller.aliasResolve, Controller.pubKey,
            hke, alistGet_put_self, alistGet_remove_self]

/-- C9 (witness): remapping `button` to `button` on a OneButton
controller erases the only button. -/
theorem C9_remap_to_same_name_removes_witness :
    alistGet
      ((OneButtonController.remapButton "button" "button").buttons)
      "button" = none ∧
    alistGet
      ((OneButtonController.remapButton "button" "button").buttonAlias)
      "button" = some "button" ∧
    (OneButtonController.remapButton "button" "button").trigger
        (CtrlEvent.privKeydown (some "button")) =
      (OneButtonController.remapButton "button" "button", []) :=
  C9_remap_to_same_name_removes OneButtonController "button"
    (Button.new "button" 32) (by decide)

/-- C10: `requestController` with a type absent from the catalog fails
with `UnsupportedControllerType` and leaves the session completely
unchanged — no host announcement is made and the main-controller
reference keeps its previous value, so any subsequent `trigger` behaves
as before the failed call. -/
theorem C10_failed_request_preserves_session (type : String) (opts : Opts)
    (s : Session) (h : controllerTypes type = none) :
    (s.requestController type opts).1 =
      Except.error GErr.UnsupportedControllerType ∧
    (s.requestController type opts).2 = s := by
  have hc : createController type opts =
      Except.error GErr.UnsupportedControllerType := by
    simp [createController, h]
  simp [Session.requestController, hc]

/-- C10 (witness): a failed `requestController("Bogus")` on a session
whose main controller and announcement trace are already set. -/
theorem C10_failed_request_preserves_session_witness :
    ((Session.mk (some OneButtonController)
        [Announcement.primary "OneButton"]).requestController "Bogus" {}).1 =
      Except.error GErr.UnsupportedControllerType ∧
    ((Session.mk (some OneButtonController)
        [Announcement.primary "OneButton"]).requestController "Bogus" {}).2 =
      Session.mk (some OneButtonController) [Announcement.primary "OneButton"] :=
  C10_failed_request_preserves_session "Bogus" {}
    (Session.mk (some OneButtonController) [Announcement.primary "OneButton"])
    (by decide)

end Gamee
